import Mathlib

/-!
# Hardware abstraction layer for POSIX of mruby/c (`src/hal_posix/hal.h`)

A shallow embedding of the header: the symbols it resolves at preprocessing
time, the function-like definitions `hal_enable_irq`, `hal_disable_irq`,
`hal_idle_cpu`, `hal_lock`, `hal_unlock`, and the inline functions
`hal_write` and `hal_flush`.

The header only calls into the host (`usleep`, `sleep`, `write`, `fsync`,
`pthread_mutex_lock`, `pthread_mutex_unlock`, `strerror`, `strlen`) and into
the scheduler (`mrbc_tick`).  Host calls are recorded, in program order, in a
trace; what the host answers is supplied by a `Host` oracle, so that every
theorem quantifies over all host behaviours.
-/

set_option linter.unusedVariables false

namespace HalPosix

/-! ## Build configuration and the symbols resolved by the header -/

/-- Preprocessor symbols a build may define before `hal.h` is read.  A symbol
with a value is `some v` when the build defines it; a feature switch is only
defined (`true`) or not. -/
structure BuildConfig where
  def_MRBC_SCHEDULER_EXIT : Option Int
  def_MRBC_TICK_UNIT : Option Int
  def_MRBC_TIMESLICE_TICK_COUNT : Option Int
  def_MRBC_NO_TIMER : Bool
  def_MRBC_ENABLE_HAL_LOCK : Bool
  def_MRBC_ENABLE_HAL_LOCK_DEBUG : Bool
deriving DecidableEq, Repr

/-- Lines 29-31: `MRBC_SCHEDULER_EXIT` has a guard of its own. -/
def MRBC_SCHEDULER_EXIT (cfg : BuildConfig) : Int :=
  match cfg.def_MRBC_SCHEDULER_EXIT with
  | some v => v
  | none => 1

def MRBC_TICK_UNIT_1_MS : Int := 1
def MRBC_TICK_UNIT_2_MS : Int := 2
def MRBC_TICK_UNIT_4_MS : Int := 4
def MRBC_TICK_UNIT_10_MS : Int := 10

/-- Lines 33-47: `MRBC_TICK_UNIT` after the header, the build's value or else
`MRBC_TICK_UNIT_4_MS`. -/
def MRBC_TICK_UNIT (cfg : BuildConfig) : Int :=
  match cfg.def_MRBC_TICK_UNIT with
  | some v => v
  | none => MRBC_TICK_UNIT_4_MS

/-- Lines 33-47: `MRBC_TIMESLICE_TICK_COUNT` after the header.  Its `#define`
sits inside the block guarded by `#if !defined(MRBC_TICK_UNIT)`: the block is
read exactly when the build does not define `MRBC_TICK_UNIT`, and then the
symbol is set to 3 (replacing a value the build gave it); when the block is
skipped the symbol is whatever the build supplied, possibly nothing. -/
def MRBC_TIMESLICE_TICK_COUNT (cfg : BuildConfig) : Option Int :=
  match cfg.def_MRBC_TICK_UNIT with
  | some _ => cfg.def_MRBC_TIMESLICE_TICK_COUNT
  | none => some 3

/-- Line 42-43 (comment of the header): the substantial timeslice value in
milliseconds, `MRBC_TICK_UNIT * MRBC_TIMESLICE_TICK_COUNT`, when both symbols
are defined. -/
def timeslice_ms (cfg : BuildConfig) : Option Int :=
  (MRBC_TIMESLICE_TICK_COUNT cfg).map (fun n => MRBC_TICK_UNIT cfg * n)

/-! ## C integer conversions -/

def INT_MAX : Int := 2147483647

/-- Conversion of a value to `int` (32 bit, two's complement). -/
def to_int (v : Int) : Int := (v + 2 ^ 31) % 2 ^ 32 - 2 ^ 31

/-- Conversion of a value to `useconds_t` (32 bit, unsigned). -/
def to_useconds_t (v : Int) : Nat := (v % 2 ^ 32).toNat

/-- Conversion of a value to `size_t` (64 bit, unsigned). -/
def to_size_t (v : Int) : Nat := (v % 2 ^ 64).toNat

/-! ## State of the process as seen through the layer -/

abbrev Byte := Nat

/-- Memory read through a `const void *`: the byte at each offset from the
pointer. -/
abbrev Buffer := Nat → Byte

/-- First `k` bytes of a buffer. -/
def bytes_at (buf : Buffer) (k : Nat) : List Byte := (List.range k).map buf

/-- Characters of a string literal, as bytes. -/
def chars (lit : String) : List Byte := lit.toList.map Char.toNat

/-- Memory holding a character array: its characters, then NUL. -/
def c_str (text : List Byte) : Buffer := fun i => text.getD i 0

/-- Result of `sizeof` on a `char` array initialised by a literal: the
characters and the terminating NUL. -/
def sizeof_literal (lit : String) : Int := (chars lit).length + 1

/-- Characters of a C string: those before the first NUL. -/
def until_nul (text : List Byte) : List Byte := text.takeWhile (fun b => b != 0)

/-- Result of `strlen`: the number of characters before the first NUL. -/
def strlen (text : List Byte) : Nat := (until_nul text).length

/-- Calls that leave the layer, as recorded in the trace. -/
inductive Call where
  | usleep (usec : Nat)
  | sleep (seconds : Nat)
  | mrbc_tick
  | pthread_mutex_lock
  | pthread_mutex_unlock
  | write (fd : Int) (count : Nat)
  | fsync (fd : Int)
deriving DecidableEq, Repr

structure HalState where
  /-- Logical Clock of the scheduler, advanced by `mrbc_tick`. -/
  tick : Nat
  /-- Preemption State (interrupt-capable build). -/
  irq_enabled : Bool
  /-- A tick signal is held back while the gate is closed. -/
  irq_pending : Bool
  /-- Asynchronous notifications delivered to the scheduler so far. -/
  signals : Nat
  /-- Whether `mutex_critical_section_` is held. -/
  mutex_held : Bool
  /-- Bytes that reached each descriptor. -/
  out : Int → List Byte
  /-- Number of bytes of each descriptor committed by the last `fsync`. -/
  synced : Int → Nat
  /-- Calls made so far, oldest first. -/
  trace : List Call

/-- Where control is after a statement: at the next statement, or nowhere
because the process was stopped. -/
inductive Flow where
  | next (s : HalState)
  | halt (s : HalState)

/-- What the host does with one `write` request. -/
inductive WriteOutcome where
  | accepts (room : Nat)
  | fails
deriving DecidableEq, Repr

/-- Whether the host takes a request of `count` bytes whole. -/
def WriteOutcome.covers (o : WriteOutcome) (count : Nat) : Bool :=
  match o with
  | WriteOutcome.accepts room => decide (count ≤ room)
  | WriteOutcome.fails => false

/-- Answers of the host.  Each answer may depend on every call made before
(the trace), so the oracle covers a host whose behaviour changes over time. -/
structure Host where
  pthread_mutex_lock : List Call → Int
  pthread_mutex_unlock : List Call → Int
  strerror : Int → List Byte
  write : List Call → Int → Nat → WriteOutcome
  fsync : List Call → Int → Int

/-! ## Host calls -/

/-- Host `usleep(usec)`: the request is recorded; its result is discarded by
the caller and it changes nothing else the layer can see. -/
def usleep (s : HalState) (usec : Nat) : HalState :=
  { s with trace := s.trace ++ [Call.usleep usec] }

/-- Host `sleep(seconds)`: the request is recorded; it returns when the time
has passed or a signal arrives. -/
def sleep (s : HalState) (seconds : Nat) : HalState :=
  { s with trace := s.trace ++ [Call.sleep seconds] }

/-- Host `pthread_mutex_lock(&mutex_critical_section_)`: returns the host's
answer, 0 meaning that the mutex is now held by the caller. -/
def pthread_mutex_lock (h : Host) (s : HalState) : Int × HalState :=
  let r := h.pthread_mutex_lock s.trace
  (r, { s with mutex_held := if r = 0 then true else s.mutex_held,
               trace := s.trace ++ [Call.pthread_mutex_lock] })

/-- Host `pthread_mutex_unlock(&mutex_critical_section_)`: returns the host's
answer, 0 meaning that the mutex was released. -/
def pthread_mutex_unlock (h : Host) (s : HalState) : Int × HalState :=
  let r := h.pthread_mutex_unlock s.trace
  (r, { s with mutex_held := if r = 0 then false else s.mutex_held,
               trace := s.trace ++ [Call.pthread_mutex_unlock] })

/-- Host `write(fd, buf, count)`: either the host takes the first `k` bytes,
`k` being `count` or less when it has room for less, appends them to the
descriptor and returns `k`; or it fails, appends nothing and returns -1. -/
def write (h : Host) (s : HalState) (fd : Int) (buf : Buffer) (count : Nat) :
    Int × HalState :=
  let s1 := { s with trace := s.trace ++ [Call.write fd count] }
  match h.write s.trace fd count with
  | WriteOutcome.accepts room =>
    let k := min room count
    ((k : Int), { s1 with out := fun d => if d = fd then s.out fd ++ bytes_at buf k else s.out d })
  | WriteOutcome.fails => (-1, s1)

/-- Host `fsync(fd)`: returns the host's answer, 0 meaning that everything
written to the descriptor so far is committed. -/
def fsync (h : Host) (s : HalState) (fd : Int) : Int × HalState :=
  let r := h.fsync s.trace fd
  (r, { s with synced := fun d => if d = fd ∧ r = 0 then (s.out fd).length else s.synced d,
               trace := s.trace ++ [Call.fsync fd] })

/-! ## Scheduler and timer side (not part of `hal.h`) -/

/-- Modelled from the spec: `mrbc_tick`, which `hal.h` only declares (line 56)
and calls; its body is in the scheduler.  "`advance_tick()` increments the
Logical Clock by exactly 1 ...; it is the only authorized mutator of the
Logical Clock."  The declaration returns `void`, so no value is returned. -/
def mrbc_tick (s : HalState) : HalState :=
  { s with tick := s.tick + 1, trace := s.trace ++ [Call.mrbc_tick] }

/-- Modelled from the spec: `hal_enable_irq` of the interrupt-capable build,
which `hal.h` only declares (line 60).  "Permits asynchronous tick delivery.
No-op (but not an error) if already enabled"; a signal held back while the
gate was closed is delivered, as one batch, on re-enable. -/
def hal_enable_irq_timer (s : HalState) : HalState :=
  if s.irq_enabled then s
  else if s.irq_pending then
    { s with irq_enabled := true, irq_pending := false, signals := s.signals + 1 }
  else { s with irq_enabled := true }

/-- Modelled from the spec: `hal_disable_irq` of the interrupt-capable build,
which `hal.h` only declares (line 61).  "Suppresses asynchronous tick
delivery." -/
def hal_disable_irq_timer (s : HalState) : HalState :=
  { s with irq_enabled := false }

/-- Modelled from the spec: one firing of the timer armed by `hal_init` in the
interrupt-capable build (`hal.h` only declares `hal_init`, line 59).  "Each
firing increments the Logical Clock and, if the Preemption Gate is open,
signals the scheduler asynchronously"; "a disabled window only defers delivery
of the interrupt signal, not the underlying logical clock increment". -/
def timer_fire (s : HalState) : HalState :=
  let s1 := mrbc_tick s
  if s1.irq_enabled then { s1 with signals := s1.signals + 1 }
  else { s1 with irq_pending := true }

/-! ## The layer -/

/-- Lines 60 and 66: `hal_enable_irq()`.  With `MRBC_NO_TIMER` it expands to
`((void)0)`; otherwise it is the function of the interrupt-capable build. -/
def hal_enable_irq (cfg : BuildConfig) (s : HalState) : HalState :=
  if cfg.def_MRBC_NO_TIMER then s else hal_enable_irq_timer s

/-- Lines 61 and 67: `hal_disable_irq()`.  With `MRBC_NO_TIMER` it expands to
`((void)0)`; otherwise it is the function of the interrupt-capable build. -/
def hal_disable_irq (cfg : BuildConfig) (s : HalState) : HalState :=
  if cfg.def_MRBC_NO_TIMER then s else hal_disable_irq_timer s

/-- Lines 62 and 68: `hal_idle_cpu()`.  With `MRBC_NO_TIMER` it expands to
`(usleep(MRBC_TICK_UNIT * 1000), mrbc_tick())`, the product being computed in
`int` and passed as `useconds_t`; otherwise to `sleep(1)`. -/
def hal_idle_cpu (cfg : BuildConfig) (s : HalState) : HalState :=
  if cfg.def_MRBC_NO_TIMER then
    mrbc_tick (usleep s (to_useconds_t (to_int (MRBC_TICK_UNIT cfg * 1000))))
  else
    sleep s 1

/-- Lines 114-117: `hal_write`.  `nbytes` is converted to `size_t` for the
host call and the host's `ssize_t` result to `int` on return. -/
def hal_write (h : Host) (s : HalState) (fd : Int) (buf : Buffer) (nbytes : Int) :
    Int × HalState :=
  let res := write h s 1 buf (to_size_t nbytes)
  (to_int res.1, res.2)

/-- Lines 126-129: `hal_flush`. -/
def hal_flush (h : Host) (s : HalState) (fd : Int) : Int × HalState :=
  fsync h s 1

/-- Body of the `if( r )` block of lines 81-86 and 91-96: three `hal_write`
calls on descriptor 1, the message, the text of `strerror(r)` with its
`strlen` as length, and a newline; every result is discarded. -/
def report_lock_error (h : Host) (s : HalState) (msg : String) (r : Int) : HalState :=
  let s1 := (hal_write h s 1 (c_str (chars msg)) (sizeof_literal msg - 1)).2
  let s2 := (hal_write h s1 1 (c_str (h.strerror r)) (to_int (strlen (h.strerror r)))).2
  (hal_write h s2 1 (c_str (chars "\n")) 1).2

/-- Lines 74-102: `hal_lock()`.  With `MRBC_ENABLE_HAL_LOCK` the mutex call
alone; else with `MRBC_ENABLE_HAL_LOCK_DEBUG` the mutex call and, when its
result is not 0, the report; else `((void)0)`. -/
def hal_lock (cfg : BuildConfig) (h : Host) (s : HalState) : Flow :=
  if cfg.def_MRBC_ENABLE_HAL_LOCK then
    Flow.next (pthread_mutex_lock h s).2
  else if cfg.def_MRBC_ENABLE_HAL_LOCK_DEBUG then
    let res := pthread_mutex_lock h s
    if res.1 ≠ 0 then Flow.next (report_lock_error h res.2 "HAL LOCK ERROR: " res.1)
    else Flow.next res.2
  else
    Flow.next s

/-- Lines 74-102: `hal_unlock()`, built like `hal_lock()` on
`pthread_mutex_unlock`. -/
def hal_unlock (cfg : BuildConfig) (h : Host) (s : HalState) : Flow :=
  if cfg.def_MRBC_ENABLE_HAL_LOCK then
    Flow.next (pthread_mutex_unlock h s).2
  else if cfg.def_MRBC_ENABLE_HAL_LOCK_DEBUG then
    let res := pthread_mutex_unlock h s
    if res.1 ≠ 0 then Flow.next (report_lock_error h res.2 "HAL UnLOCK ERROR: " res.1)
    else Flow.next res.2
  else
    Flow.next s

/-! ## Runs -/

/-- `n` consecutive calls of `hal_idle_cpu()`. -/
def idle_loop (cfg : BuildConfig) : Nat → HalState → HalState
  | 0, s => s
  | n + 1, s => idle_loop cfg n (hal_idle_cpu cfg s)

/-- One tick delivery.  The cooperative build has no timer: a tick is
delivered by a call of `hal_idle_cpu()`, the one place of the header that calls
`mrbc_tick`.  In the interrupt-capable build it is a firing of the timer. -/
def tick_delivery (cfg : BuildConfig) (s : HalState) : HalState :=
  if cfg.def_MRBC_NO_TIMER then hal_idle_cpu cfg s else timer_fire s

/-- `n` consecutive tick deliveries. -/
def tick_deliveries (cfg : BuildConfig) : Nat → HalState → HalState
  | 0, s => s
  | n + 1, s => tick_deliveries cfg n (tick_delivery cfg s)

/-- What can happen, one after the other, while the scheduler idles in the
interrupt-capable build: the timer fires, or the scheduler calls
`hal_idle_cpu()`. -/
inductive Step where
  | fire
  | idle
deriving DecidableEq, Repr

def step (cfg : BuildConfig) (e : Step) (s : HalState) : HalState :=
  match e with
  | Step.fire => timer_fire s
  | Step.idle => hal_idle_cpu cfg s

def run (cfg : BuildConfig) : List Step → HalState → HalState
  | [], s => s
  | e :: es, s => run cfg es (step cfg e s)

/-- The window of the deferred-delivery property: `hal_disable_irq()`, `k`
tick deliveries, `hal_enable_irq()`. -/
def disabled_window (cfg : BuildConfig) (k : Nat) (s : HalState) : HalState :=
  hal_enable_irq cfg (tick_deliveries cfg k (hal_disable_irq cfg s))

/-- Number of `mrbc_tick` calls in a trace. -/
def tick_calls (t : List Call) : Nat := t.count Call.mrbc_tick

/-- Time, in microseconds, a call asks the host to block for at most. -/
def Call.block_usec : Call → Nat
  | Call.usleep usec => usec
  | Call.sleep seconds => seconds * 1000000
  | _ => 0

/-- Time, in microseconds, `hal_idle_cpu()` asks to block for at most: the
blocking requests among the calls it adds to the trace. -/
def idle_timeout_usec (cfg : BuildConfig) (s : HalState) : Nat :=
  (((hal_idle_cpu cfg s).trace.drop s.trace.length).map Call.block_usec).sum

/-! ## Concrete builds, hosts and states -/

/-- A build that defines nothing: interrupt-capable, no lock. -/
def cfg_default : BuildConfig :=
  { def_MRBC_SCHEDULER_EXIT := none, def_MRBC_TICK_UNIT := none,
    def_MRBC_TIMESLICE_TICK_COUNT := none, def_MRBC_NO_TIMER := false,
    def_MRBC_ENABLE_HAL_LOCK := false, def_MRBC_ENABLE_HAL_LOCK_DEBUG := false }

/-- Cooperative build, `-DMRBC_NO_TIMER`. -/
def cfg_no_timer : BuildConfig := { cfg_default with def_MRBC_NO_TIMER := true }

/-- Cooperative build with the plain lock,
`-DMRBC_NO_TIMER -DMRBC_ENABLE_HAL_LOCK`. -/
def cfg_no_timer_lock : BuildConfig :=
  { cfg_default with def_MRBC_NO_TIMER := true, def_MRBC_ENABLE_HAL_LOCK := true }

/-- Cooperative build with the reporting lock,
`-DMRBC_NO_TIMER -DMRBC_ENABLE_HAL_LOCK_DEBUG`. -/
def cfg_no_timer_lock_debug : BuildConfig :=
  { cfg_default with def_MRBC_NO_TIMER := true, def_MRBC_ENABLE_HAL_LOCK_DEBUG := true }

/-- Build with the plain lock, `-DMRBC_ENABLE_HAL_LOCK`. -/
def cfg_lock : BuildConfig := { cfg_default with def_MRBC_ENABLE_HAL_LOCK := true }

/-- Build with the reporting lock, `-DMRBC_ENABLE_HAL_LOCK_DEBUG`. -/
def cfg_lock_debug : BuildConfig :=
  { cfg_default with def_MRBC_ENABLE_HAL_LOCK_DEBUG := true }

/-- Build that overrides the tick unit only, `-DMRBC_TICK_UNIT=10`. -/
def cfg_tick_unit_10 : BuildConfig := { cfg_default with def_MRBC_TICK_UNIT := some 10 }

/-- State at process start. -/
def state0 : HalState :=
  { tick := 0, irq_enabled := false, irq_pending := false, signals := 0,
    mutex_held := false, out := fun _ => [], synced := fun _ => 0, trace := [] }

/-- A state in the middle of a run: clock at 41, gate open. -/
def state41 : HalState := { state0 with tick := 41, irq_enabled := true }

/-- A host on which every call succeeds and every write is taken whole. -/
def host_ok : Host :=
  { pthread_mutex_lock := fun _ => 0, pthread_mutex_unlock := fun _ => 0,
    strerror := fun _ => chars "Unknown error",
    write := fun _ _ count => WriteOutcome.accepts count,
    fsync := fun _ _ => 0 }

/-- A host whose mutex calls fail with `EINVAL` (22); writes are taken whole. -/
def host_einval : Host :=
  { host_ok with pthread_mutex_lock := fun _ => 22, pthread_mutex_unlock := fun _ => 22,
                 strerror := fun _ => chars "Invalid argument" }

/-- A host that takes at most 3 bytes per write. -/
def host_short : Host := { host_ok with write := fun _ _ _ => WriteOutcome.accepts 3 }

/-- A host whose mutex calls fail with `EINVAL` (22) and that has room for
100 bytes per write. -/
def host_einval_100 : Host :=
  { host_einval with write := fun _ _ _ => WriteOutcome.accepts 100 }

/-- A host on which every write and every flush fails. -/
def host_broken : Host :=
  { host_ok with write := fun _ _ _ => WriteOutcome.fails, fsync := fun _ _ => -1 }

/-! ## Arithmetic and list facts used below -/

theorem to_int_of_range (v : Int) (h1 : -2 ^ 31 ≤ v) (h2 : v < 2 ^ 31) : to_int v = v := by
  unfold to_int
  omega

theorem to_size_t_of_range (v : Int) (h1 : 0 ≤ v) (h2 : v < 2 ^ 64) :
    to_size_t v = v.toNat := by
  unfold to_size_t
  congr 1
  omega

theorem to_useconds_t_of_range (v : Int) (h1 : 0 ≤ v) (h2 : v < 2 ^ 32) :
    to_useconds_t v = v.toNat := by
  unfold to_useconds_t
  congr 1
  omega

theorem bytes_at_length (buf : Buffer) (k : Nat) : (bytes_at buf k).length = k := by
  simp [bytes_at]

theorem bytes_at_c_str (text : List Byte) : bytes_at (c_str text) text.length = text := by
  apply List.ext_getElem
  · simp [bytes_at]
  · intro i h1 h2
    simp [bytes_at, c_str, List.getElem?_eq_getElem h2]

/-! ## Tick delivery -/

theorem hal_idle_cpu_no_timer (cfg : BuildConfig) (s : HalState)
    (hmode : cfg.def_MRBC_NO_TIMER = true) :
    hal_idle_cpu cfg s =
      mrbc_tick (usleep s (to_useconds_t (to_int (MRBC_TICK_UNIT cfg * 1000)))) := by
  simp [hal_idle_cpu, hmode]

theorem hal_idle_cpu_timer (cfg : BuildConfig) (s : HalState)
    (hmode : cfg.def_MRBC_NO_TIMER = false) : hal_idle_cpu cfg s = sleep s 1 := by
  simp [hal_idle_cpu, hmode]

theorem tick_delivery_tick (cfg : BuildConfig) (s : HalState) :
    (tick_delivery cfg s).tick = s.tick + 1 := by
  unfold tick_delivery hal_idle_cpu timer_fire mrbc_tick usleep
  cases cfg.def_MRBC_NO_TIMER <;> cases s.irq_enabled <;> simp

theorem tick_deliveries_tick (cfg : BuildConfig) (n : Nat) :
    ∀ s : HalState, (tick_deliveries cfg n s).tick = s.tick + n := by
  induction n with
  | zero => intro s; rfl
  | succ n ih =>
    intro s
    show (tick_deliveries cfg n (tick_delivery cfg s)).tick = s.tick + (n + 1)
    rw [ih, tick_delivery_tick]
    omega

theorem tick_deliveries_no_timer (cfg : BuildConfig) (hmode : cfg.def_MRBC_NO_TIMER = true)
    (n : Nat) : ∀ s : HalState, tick_deliveries cfg n s = idle_loop cfg n s := by
  induction n with
  | zero => intro s; rfl
  | succ n ih =>
    intro s
    show tick_deliveries cfg n (tick_delivery cfg s) = idle_loop cfg n (hal_idle_cpu cfg s)
    rw [ih]
    simp [tick_delivery, hmode]

theorem hal_idle_cpu_tick_calls (cfg : BuildConfig) (s : HalState) :
    tick_calls (hal_idle_cpu cfg s).trace
      = tick_calls s.trace + (if cfg.def_MRBC_NO_TIMER then 1 else 0) := by
  unfold hal_idle_cpu mrbc_tick usleep sleep tick_calls
  cases cfg.def_MRBC_NO_TIMER <;> simp [List.count_append, List.count_cons, List.count_nil]

theorem idle_loop_tick_calls (cfg : BuildConfig) (hmode : cfg.def_MRBC_NO_TIMER = true)
    (n : Nat) : ∀ s : HalState,
      tick_calls (idle_loop cfg n s).trace = tick_calls s.trace + n := by
  induction n with
  | zero => intro s; rfl
  | succ n ih =>
    intro s
    show tick_calls (idle_loop cfg n (hal_idle_cpu cfg s)).trace = tick_calls s.trace + (n + 1)
    rw [ih, hal_idle_cpu_tick_calls]
    simp [hmode]
    omega

theorem step_tick (cfg : BuildConfig) (hmode : cfg.def_MRBC_NO_TIMER = false) (e : Step)
    (s : HalState) : (step cfg e s).tick = s.tick + (if e = Step.fire then 1 else 0) := by
  cases e
  · simp only [step, if_true]
    unfold timer_fire mrbc_tick
    cases s.irq_enabled <;> simp
  · simp [step, hal_idle_cpu, hmode, sleep]

theorem run_tick (cfg : BuildConfig) (hmode : cfg.def_MRBC_NO_TIMER = false)
    (steps : List Step) : ∀ s : HalState,
      (run cfg steps s).tick = s.tick + steps.count Step.fire := by
  induction steps with
  | nil => intro s; rfl
  | cons e es ih =>
    intro s
    show (run cfg es (step cfg e s)).tick = s.tick + (e :: es).count Step.fire
    rw [ih, step_tick cfg hmode, List.count_cons]
    cases e <;> simp
    omega

/-- C1: in the cooperative build (`MRBC_NO_TIMER` defined, tick unit a
non-negative number of milliseconds whose count of microseconds fits `int`),
from every state one call of `hal_idle_cpu()` adds exactly two calls to the
trace, first one `usleep` of `MRBC_TICK_UNIT * 1000` microseconds and after it
one `mrbc_tick`; on return the Logical Clock is exactly 1 higher and nothing
else of the state has changed. -/
theorem hal_idle_cpu_cooperative (cfg : BuildConfig) (s : HalState)
    (hmode : cfg.def_MRBC_NO_TIMER = true)
    (hlo : 0 ≤ MRBC_TICK_UNIT cfg) (hhi : MRBC_TICK_UNIT cfg * 1000 ≤ INT_MAX) :
    (hal_idle_cpu cfg s).trace
        = s.trace ++ [Call.usleep (MRBC_TICK_UNIT cfg * 1000).toNat, Call.mrbc_tick]
      ∧ (hal_idle_cpu cfg s).tick = s.tick + 1
      ∧ (hal_idle_cpu cfg s).irq_enabled = s.irq_enabled
      ∧ (hal_idle_cpu cfg s).irq_pending = s.irq_pending
      ∧ (hal_idle_cpu cfg s).signals = s.signals
      ∧ (hal_idle_cpu cfg s).mutex_held = s.mutex_held
      ∧ (hal_idle_cpu cfg s).out = s.out
      ∧ (hal_idle_cpu cfg s).synced = s.synced := by
  have hint : to_int (MRBC_TICK_UNIT cfg * 1000) = MRBC_TICK_UNIT cfg * 1000 := by
    apply to_int_of_range
    · omega
    · unfold INT_MAX at hhi; omega
  have husec : to_useconds_t (MRBC_TICK_UNIT cfg * 1000)
      = (MRBC_TICK_UNIT cfg * 1000).toNat := by
    apply to_useconds_t_of_range
    · omega
    · unfold INT_MAX at hhi; omega
  rw [hal_idle_cpu_no_timer cfg s hmode, hint, husec]
  simp [mrbc_tick, usleep]

/-- Witness of C1: the cooperative build with the default tick unit of 4 ms,
called at clock 41, requests `usleep(4000)`, then calls `mrbc_tick`, and
returns at clock 42. -/
theorem hal_idle_cpu_cooperative_witness :
    (hal_idle_cpu cfg_no_timer state41).trace = [Call.usleep 4000, Call.mrbc_tick]
      ∧ (hal_idle_cpu cfg_no_timer state41).tick = 42 :=
  ⟨(hal_idle_cpu_cooperative cfg_no_timer state41 rfl (by decide) (by decide)).1,
   (hal_idle_cpu_cooperative cfg_no_timer state41 rfl (by decide) (by decide)).2.1⟩

/-- C2: for every `N` and every starting state, after `N` tick deliveries the
Logical Clock is its starting value plus exactly `N`, in both builds.  In the
cooperative build the deliveries are `N` calls of `hal_idle_cpu()` and they
make exactly `N` calls of `mrbc_tick`.  In the interrupt-capable build
`hal_idle_cpu()` leaves the clock alone and calls `mrbc_tick` zero times, so
however idle waits are interleaved with `N` timer firings the clock ends `N`
higher. -/
theorem tick_count_exact (cfg : BuildConfig) (N : Nat) (s : HalState) :
    (tick_deliveries cfg N s).tick = s.tick + N
      ∧ (cfg.def_MRBC_NO_TIMER = true →
          tick_deliveries cfg N s = idle_loop cfg N s
          ∧ tick_calls (idle_loop cfg N s).trace = tick_calls s.trace + N)
      ∧ (cfg.def_MRBC_NO_TIMER = false →
          (hal_idle_cpu cfg s).tick = s.tick
          ∧ tick_calls (hal_idle_cpu cfg s).trace = tick_calls s.trace
          ∧ ∀ steps : List Step, steps.count Step.fire = N →
              (run cfg steps s).tick = s.tick + N) := by
  refine ⟨tick_deliveries_tick cfg N s, ?_, ?_⟩
  · intro hmode
    exact ⟨tick_deliveries_no_timer cfg hmode N s, idle_loop_tick_calls cfg hmode N s⟩
  · intro hmode
    refine ⟨?_, ?_, ?_⟩
    · simp [hal_idle_cpu, hmode, sleep]
    · rw [hal_idle_cpu_tick_calls]; simp [hmode]
    · intro steps hcount
      rw [run_tick cfg hmode steps s, hcount]

/-- Witness of C2: three idle waits of the cooperative build take the clock
from 41 to 44 with three `mrbc_tick` calls; in the interrupt-capable build two
timer firings interleaved with three idle waits take it from 41 to 43. -/
theorem tick_count_exact_witness :
    (idle_loop cfg_no_timer 3 state41).tick = 44
      ∧ tick_calls (idle_loop cfg_no_timer 3 state41).trace = 3
      ∧ (run cfg_default [Step.idle, Step.fire, Step.idle, Step.fire, Step.idle] state41).tick
          = 43 := by
  have h := tick_count_exact cfg_no_timer 3 state41
  have h2 := tick_count_exact cfg_default 2 state41
  refine ⟨?_, (h.2.1 rfl).2, (h2.2.2 rfl).2.2 _ (by decide)⟩
  rw [← (h.2.1 rfl).1]
  exact h.1

/-- C3: for every `K` and every starting state, `hal_disable_irq()`, `K` tick
deliveries, `hal_enable_irq()` leave the Logical Clock exactly `K` higher, in
both builds.  In the cooperative build `hal_disable_irq()` and
`hal_enable_irq()` return the state they were given, whatever it is, so the
window is `K` calls of `hal_idle_cpu()` and holds exactly `K` calls of
`mrbc_tick`.  In either build `hal_enable_irq()` on an open gate changes
nothing. -/
theorem disabled_window_defers (cfg : BuildConfig) (K : Nat) (s : HalState) :
    (disabled_window cfg K s).tick = s.tick + K
      ∧ (cfg.def_MRBC_NO_TIMER = true →
          hal_disable_irq cfg s = s ∧ hal_enable_irq cfg s = s
          ∧ disabled_window cfg K s = idle_loop cfg K s
          ∧ tick_calls (disabled_window cfg K s).trace = tick_calls s.trace + K)
      ∧ (s.irq_enabled = true → hal_enable_irq cfg s = s) := by
  refine ⟨?_, ?_, ?_⟩
  · have hen : ∀ t : HalState, (hal_enable_irq cfg t).tick = t.tick := by
      intro t
      unfold hal_enable_irq hal_enable_irq_timer
      cases cfg.def_MRBC_NO_TIMER <;> cases t.irq_enabled <;> cases t.irq_pending <;> simp
    have hdis : (hal_disable_irq cfg s).tick = s.tick := by
      unfold hal_disable_irq hal_disable_irq_timer
      cases cfg.def_MRBC_NO_TIMER <;> simp
    unfold disabled_window
    rw [hen, tick_deliveries_tick, hdis]
  · intro hmode
    have hwin : disabled_window cfg K s = idle_loop cfg K s := by
      simp [disabled_window, hal_enable_irq, hal_disable_irq, hmode,
        tick_deliveries_no_timer cfg hmode]
    refine ⟨by simp [hal_disable_irq, hmode], by simp [hal_enable_irq, hmode], hwin, ?_⟩
    rw [hwin]
    exact idle_loop_tick_calls cfg hmode K s
  · intro hopen
    unfold hal_enable_irq hal_enable_irq_timer
    cases cfg.def_MRBC_NO_TIMER <;> simp [hopen]

/-- Witness of C3: a window of five ticks opened at clock 41 closes at clock
46, in the cooperative build with five `mrbc_tick` calls and the gate
untouched. -/
theorem disabled_window_defers_witness :
    (disabled_window cfg_no_timer 5 state41).tick = 46
      ∧ (disabled_window cfg_default 5 state41).tick = 46
      ∧ tick_calls (disabled_window cfg_no_timer 5 state41).trace = 5
      ∧ hal_enable_irq cfg_default state41 = state41 :=
  ⟨(disabled_window_defers cfg_no_timer 5 state41).1,
   (disabled_window_defers cfg_default 5 state41).1,
   ((disabled_window_defers cfg_no_timer 5 state41).2.1 rfl).2.2.2,
   (disabled_window_defers cfg_default 5 state41).2.2 rfl⟩

/-! ## Byte Sink -/

theorem hal_write_in_range (h : Host) (s : HalState) (fd : Int) (buf : Buffer) (nbytes : Int)
    (h0 : 0 ≤ nbytes) (h1 : nbytes ≤ INT_MAX) :
    hal_write h s fd buf nbytes = write h s 1 buf nbytes.toNat := by
  have hsz : to_size_t nbytes = nbytes.toNat := by
    apply to_size_t_of_range _ h0
    unfold INT_MAX at h1; omega
  unfold hal_write
  rw [hsz]
  unfold write
  cases h.write s.trace 1 nbytes.toNat with
  | accepts room =>
    have hk : to_int ((min room nbytes.toNat : Nat) : Int) = ((min room nbytes.toNat : Nat) : Int) := by
      unfold to_int
      unfold INT_MAX at h1
      omega
    simp only [hk]
  | fails =>
    have hneg : to_int (-1) = -1 := by
      unfold to_int
      omega
    simp only [hneg]

/-- C4: for every descriptor argument, buffer, length, host and state,
`hal_write(fd, buf, nbytes)` is `hal_write(1, buf, nbytes)` and
`hal_flush(fd)` is `hal_flush(1)`, in result and in effect: the one host call
made is a `write`, respectively an `fsync`, on descriptor 1, and no
descriptor other than 1 receives a byte or is committed. -/
theorem hal_write_fixed_channel (h : Host) (s : HalState) (fd : Int) (buf : Buffer)
    (nbytes : Int) :
    hal_write h s fd buf nbytes = hal_write h s 1 buf nbytes
      ∧ hal_flush h s fd = hal_flush h s 1
      ∧ (hal_write h s fd buf nbytes).2.trace = s.trace ++ [Call.write 1 (to_size_t nbytes)]
      ∧ (hal_flush h s fd).2.trace = s.trace ++ [Call.fsync 1]
      ∧ (∀ d : Int, d ≠ 1 →
          (hal_write h s fd buf nbytes).2.out d = s.out d
          ∧ (hal_flush h s fd).2.synced d = s.synced d) := by
  refine ⟨rfl, rfl, ?_, rfl, ?_⟩
  · unfold hal_write write
    cases h.write s.trace 1 (to_size_t nbytes) <;> rfl
  · intro d hd
    constructor
    · unfold hal_write write
      cases h.write s.trace 1 (to_size_t nbytes) <;> simp [hd]
    · simp [hal_flush, fsync, hd]

/-- Witness of C4: `hal_write(2, "abc", 3)` and `hal_flush(2)` on a host that
takes everything put the three bytes on descriptor 1, commit descriptor 1, and
leave descriptor 2 empty and uncommitted. -/
theorem hal_write_fixed_channel_witness :
    (hal_write host_ok state0 2 (c_str (chars "abc")) 3).2.out 2 = []
      ∧ (hal_flush host_ok state0 2).2.synced 2 = 0
      ∧ (hal_write host_ok state0 2 (c_str (chars "abc")) 3).2.out 1 = [97, 98, 99]
      ∧ (hal_write host_ok state0 2 (c_str (chars "abc")) 3).2.trace = [Call.write 1 3] :=
  ⟨((hal_write_fixed_channel host_ok state0 2 (c_str (chars "abc")) 3).2.2.2.2 2
      (by decide)).1,
   ((hal_write_fixed_channel host_ok state0 2 (c_str (chars "abc")) 3).2.2.2.2 2
      (by decide)).2,
   by decide,
   (hal_write_fixed_channel host_ok state0 2 (c_str (chars "abc")) 3).2.2.1⟩

/-- C5: for every buffer, every `int` length `nbytes >= 0`, every host and
state, `hal_write` makes exactly one host call, a `write` on descriptor 1 of
the whole length, and returns exactly what that call reported: when the host
takes `k` bytes (`k = nbytes`, or less when it has room for less) the result
is `k`, `0 <= k <= nbytes`, and the first `k` bytes of the buffer are what was
appended to the channel; when the host fails the result is -1 and nothing was
appended. -/
theorem hal_write_reports (h : Host) (s : HalState) (fd : Int) (buf : Buffer) (nbytes : Int)
    (h0 : 0 ≤ nbytes) (h1 : nbytes ≤ INT_MAX) :
    (hal_write h s fd buf nbytes).2.trace = s.trace ++ [Call.write 1 nbytes.toNat]
      ∧ (hal_write h s fd buf nbytes).1 = (write h s 1 buf nbytes.toNat).1
      ∧ (∀ room : Nat, h.write s.trace 1 nbytes.toNat = WriteOutcome.accepts room →
          (hal_write h s fd buf nbytes).1 = min room nbytes.toNat
          ∧ 0 ≤ (hal_write h s fd buf nbytes).1
          ∧ (hal_write h s fd buf nbytes).1 ≤ nbytes
          ∧ (room < nbytes.toNat → (hal_write h s fd buf nbytes).1 < nbytes)
          ∧ (hal_write h s fd buf nbytes).2.out 1
              = s.out 1 ++ bytes_at buf (hal_write h s fd buf nbytes).1.toNat
          ∧ ((hal_write h s fd buf nbytes).2.out 1).length
              = (s.out 1).length + (hal_write h s fd buf nbytes).1.toNat)
      ∧ (h.write s.trace 1 nbytes.toNat = WriteOutcome.fails →
          (hal_write h s fd buf nbytes).1 = -1
          ∧ (hal_write h s fd buf nbytes).2.out 1 = s.out 1) := by
  rw [hal_write_in_range h s fd buf nbytes h0 h1]
  refine ⟨?_, rfl, ?_, ?_⟩
  · unfold write
    cases h.write s.trace 1 nbytes.toNat <;> rfl
  · intro room hroom
    unfold write
    rw [hroom]
    simp only [if_true, Int.toNat_ofNat, List.length_append, bytes_at_length]
    refine ⟨trivial, ?_, ?_, ?_, trivial, trivial⟩ <;> omega
  · intro hfail
    unfold write
    rw [hfail]
    exact ⟨rfl, rfl⟩

/-- Witness of C5: asked for 5 bytes on a host that has room for 3,
`hal_write` returns 3 and the channel holds the first 3 bytes; on a host whose
write fails it returns -1 and the channel is unchanged. -/
theorem hal_write_reports_witness :
    (hal_write host_short state0 1 (c_str (chars "hello")) 5).1 = 3
      ∧ (hal_write host_short state0 1 (c_str (chars "hello")) 5).2.out 1 = [104, 101, 108]
      ∧ (hal_write host_broken state0 1 (c_str (chars "hello")) 5).1 = -1
      ∧ (hal_write host_broken state0 1 (c_str (chars "hello")) 5).2.out 1 = [] := by
  have hs := hal_write_reports host_short state0 1 (c_str (chars "hello")) 5
    (by decide) (by decide)
  have hb := hal_write_reports host_broken state0 1 (c_str (chars "hello")) 5
    (by decide) (by decide)
  have h3 := hs.2.2.1 3 rfl
  refine ⟨h3.1, ?_, (hb.2.2.2 rfl).1, (hb.2.2.2 rfl).2⟩
  rw [h3.2.2.2.2.1, h3.1]
  decide

/-! ## Critical Section Lock -/

theorem bytes_at_c_str_take (text : List Byte) (k : Nat) (hk : k ≤ text.length) :
    bytes_at (c_str text) k = text.take k := by
  apply List.ext_getElem
  · simp [bytes_at, hk]
  · intro i h1 h2
    have hi : i < text.length := by
      simp [bytes_at] at h1
      omega
    simp [bytes_at, c_str, List.getElem?_eq_getElem hi]

theorem bytes_at_strlen (text : List Byte) :
    bytes_at (c_str text) (strlen text) = until_nul text := by
  have hpre : until_nul text <+: text := List.takeWhile_prefix _
  rw [bytes_at_c_str_take text (strlen text) hpre.length_le]
  exact (List.prefix_iff_eq_take.mp hpre).symm

theorem write_trace (h : Host) (s : HalState) (fd : Int) (buf : Buffer) (count : Nat) :
    (write h s fd buf count).2.trace = s.trace ++ [Call.write fd count] := by
  unfold write
  cases h.write s.trace fd count <;> rfl

theorem write_whole (h : Host) (s : HalState) (buf : Buffer) (count : Nat)
    (hc : (h.write s.trace 1 count).covers count = true) :
    (write h s 1 buf count).2.out 1 = s.out 1 ++ bytes_at buf count := by
  unfold write
  cases hw : h.write s.trace 1 count with
  | accepts room =>
    rw [hw] at hc
    have hle : count ≤ room := by simpa [WriteOutcome.covers] using hc
    simp [Nat.min_eq_right hle]
  | fails =>
    rw [hw] at hc
    simp [WriteOutcome.covers] at hc

theorem report_lock_error_trace (h : Host) (s : HalState) (msg : String) (r : Int) :
    (report_lock_error h s msg r).trace
      = s.trace ++ [Call.write 1 (to_size_t (sizeof_literal msg - 1)),
          Call.write 1 (to_size_t (to_int (strlen (h.strerror r)))),
          Call.write 1 (to_size_t 1)] := by
  simp [report_lock_error, hal_write, write_trace]

theorem report_lock_error_out (h : Host) (s : HalState) (msg : String) (r : Int)
    (hmsg : ((chars msg).length : Int) ≤ INT_MAX)
    (hlen : (strlen (h.strerror r) : Int) ≤ INT_MAX)
    (hw1 : (h.write s.trace 1 (chars msg).length).covers (chars msg).length = true)
    (hw2 : (h.write (s.trace ++ [Call.write 1 (chars msg).length]) 1
        (strlen (h.strerror r))).covers (strlen (h.strerror r)) = true)
    (hw3 : (h.write (s.trace ++ [Call.write 1 (chars msg).length,
        Call.write 1 (strlen (h.strerror r))]) 1 1).covers 1 = true) :
    (report_lock_error h s msg r).out 1
      = s.out 1 ++ chars msg ++ until_nul (h.strerror r) ++ chars "\n" := by
  have hint : to_int (strlen (h.strerror r)) = strlen (h.strerror r) := by
    unfold to_int
    unfold INT_MAX at hlen
    omega
  have ht1 : (write h s 1 (c_str (chars msg)) (chars msg).length).2.trace
      = s.trace ++ [Call.write 1 (chars msg).length] := write_trace _ _ _ _ _
  have ht2 : (write h (write h s 1 (c_str (chars msg)) (chars msg).length).2 1
        (c_str (h.strerror r)) (strlen (h.strerror r))).2.trace
      = s.trace ++ [Call.write 1 (chars msg).length,
          Call.write 1 (strlen (h.strerror r))] := by
    rw [write_trace, ht1, List.append_assoc]
    rfl
  have hnl : bytes_at (c_str (chars "\n")) 1 = chars "\n" := by decide
  unfold report_lock_error
  simp only [sizeof_literal, add_sub_cancel_right, hint]
  rw [hal_write_in_range _ _ _ _ _ (by decide) (by decide),
    hal_write_in_range _ _ _ _ _ (Int.ofNat_nonneg _) hlen,
    hal_write_in_range _ _ _ _ _ (Int.ofNat_nonneg _) hmsg]
  simp only [Int.toNat_ofNat]
  show (write h _ 1 (c_str (chars "\n")) 1).2.out 1 = _
  rw [write_whole _ _ _ _ (by rw [ht2]; exact hw3),
    write_whole _ _ _ _ (by rw [ht1]; exact hw2),
    write_whole _ _ _ _ hw1]
  rw [bytes_at_strlen, bytes_at_c_str, hnl]

theorem hal_lock_next (cfg : BuildConfig) (h : Host) (s : HalState) :
    ∃ s' : HalState, hal_lock cfg h s = Flow.next s' := by
  unfold hal_lock
  split
  · exact ⟨_, rfl⟩
  · split
    · simp only
      split <;> exact ⟨_, rfl⟩
    · exact ⟨_, rfl⟩

theorem hal_unlock_next (cfg : BuildConfig) (h : Host) (s : HalState) :
    ∃ s' : HalState, hal_unlock cfg h s = Flow.next s' := by
  unfold hal_unlock
  split
  · exact ⟨_, rfl⟩
  · split
    · simp only
      split <;> exact ⟨_, rfl⟩
    · exact ⟨_, rfl⟩

theorem hal_lock_debug (cfg : BuildConfig) (h : Host) (s : HalState)
    (hplain : cfg.def_MRBC_ENABLE_HAL_LOCK = false)
    (hdebug : cfg.def_MRBC_ENABLE_HAL_LOCK_DEBUG = true) :
    hal_lock cfg h s =
      if h.pthread_mutex_lock s.trace ≠ 0 then
        Flow.next (report_lock_error h (pthread_mutex_lock h s).2 "HAL LOCK ERROR: "
          (h.pthread_mutex_lock s.trace))
      else Flow.next (pthread_mutex_lock h s).2 := by
  simp [hal_lock, hplain, hdebug, pthread_mutex_lock]

theorem hal_unlock_debug (cfg : BuildConfig) (h : Host) (s : HalState)
    (hplain : cfg.def_MRBC_ENABLE_HAL_LOCK = false)
    (hdebug : cfg.def_MRBC_ENABLE_HAL_LOCK_DEBUG = true) :
    hal_unlock cfg h s =
      if h.pthread_mutex_unlock s.trace ≠ 0 then
        Flow.next (report_lock_error h (pthread_mutex_unlock h s).2 "HAL UnLOCK ERROR: "
          (h.pthread_mutex_unlock s.trace))
      else Flow.next (pthread_mutex_unlock h s).2 := by
  simp [hal_unlock, hplain, hdebug, pthread_mutex_unlock]

/-- C6, refuted as stated: in the build with `MRBC_ENABLE_HAL_LOCK`, on a host
whose mutex calls answer 22, `hal_lock()` and `hal_unlock()` make the mutex
call and write nothing; and in the build with `MRBC_ENABLE_HAL_LOCK_DEBUG`,
on a host that takes 3 bytes per write, the channel receives `HAL`, `Unk` and
a newline, not the whole report. -/
theorem lock_failure_logged_counterexample :
    host_einval.pthread_mutex_lock state0.trace = 22
      ∧ host_einval.pthread_mutex_unlock state0.trace = 22
      ∧ (∃ s' : HalState, hal_lock cfg_lock host_einval state0 = Flow.next s'
          ∧ s'.trace = [Call.pthread_mutex_lock] ∧ s'.out 1 = [])
      ∧ (∃ s' : HalState, hal_unlock cfg_lock host_einval state0 = Flow.next s'
          ∧ s'.trace = [Call.pthread_mutex_unlock] ∧ s'.out 1 = [])
      ∧ (∃ s' : HalState,
          hal_lock cfg_lock_debug
            { host_short with pthread_mutex_lock := fun _ => 22 } state0 = Flow.next s'
          ∧ s'.out 1 = chars "HALUnk\n") := by
  refine ⟨rfl, rfl, ⟨_, rfl, rfl, rfl⟩, ⟨_, rfl, rfl, rfl⟩, ⟨_, rfl, ?_⟩⟩
  decide

/-- C6, amended: in the build with `MRBC_ENABLE_HAL_LOCK_DEBUG` and without
`MRBC_ENABLE_HAL_LOCK`, on a host whose error texts have an `int` length, for
every state: when the mutex call of `hal_lock()` (respectively `hal_unlock()`)
answers 0, control continues and the macro has made the mutex call only,
writing nothing; when it answers `r` other than 0, control continues after the
mutex call and three writes on descriptor 1, of the 16 characters
`HAL LOCK ERROR: ` (respectively the 18 characters `HAL UnLOCK ERROR: `), of
the text of `strerror(r)`, and of one newline, and, when the host takes each
of these three writes whole, the channel has received exactly the message, the
text and the newline. -/
theorem lock_failure_reported (cfg : BuildConfig) (h : Host) (s : HalState)
    (hplain : cfg.def_MRBC_ENABLE_HAL_LOCK = false)
    (hdebug : cfg.def_MRBC_ENABLE_HAL_LOCK_DEBUG = true)
    (hlen : ∀ r : Int, (strlen (h.strerror r) : Int) ≤ INT_MAX) :
    (h.pthread_mutex_lock s.trace = 0 →
        ∃ s' : HalState, hal_lock cfg h s = Flow.next s'
          ∧ s'.trace = s.trace ++ [Call.pthread_mutex_lock] ∧ s'.out = s.out)
      ∧ (h.pthread_mutex_lock s.trace ≠ 0 →
        ∃ s' : HalState, hal_lock cfg h s = Flow.next s'
          ∧ s'.trace = s.trace ++ [Call.pthread_mutex_lock, Call.write 1 16,
              Call.write 1 (strlen (h.strerror (h.pthread_mutex_lock s.trace))),
              Call.write 1 1]
          ∧ ((h.write (s.trace ++ [Call.pthread_mutex_lock]) 1 16).covers 16 = true →
              (h.write (s.trace ++ [Call.pthread_mutex_lock, Call.write 1 16]) 1
                (strlen (h.strerror (h.pthread_mutex_lock s.trace)))).covers
                (strlen (h.strerror (h.pthread_mutex_lock s.trace))) = true →
              (h.write (s.trace ++ [Call.pthread_mutex_lock, Call.write 1 16,
                Call.write 1 (strlen (h.strerror (h.pthread_mutex_lock s.trace)))]) 1
                1).covers 1 = true →
              s'.out 1 = s.out 1 ++ chars "HAL LOCK ERROR: "
                ++ until_nul (h.strerror (h.pthread_mutex_lock s.trace)) ++ chars "\n"))
      ∧ (h.pthread_mutex_unlock s.trace = 0 →
        ∃ s' : HalState, hal_unlock cfg h s = Flow.next s'
          ∧ s'.trace = s.trace ++ [Call.pthread_mutex_unlock] ∧ s'.out = s.out)
      ∧ (h.pthread_mutex_unlock s.trace ≠ 0 →
        ∃ s' : HalState, hal_unlock cfg h s = Flow.next s'
          ∧ s'.trace = s.trace ++ [Call.pthread_mutex_unlock, Call.write 1 18,
              Call.write 1 (strlen (h.strerror (h.pthread_mutex_unlock s.trace))),
              Call.write 1 1]
          ∧ ((h.write (s.trace ++ [Call.pthread_mutex_unlock]) 1 18).covers 18 = true →
              (h.write (s.trace ++ [Call.pthread_mutex_unlock, Call.write 1 18]) 1
                (strlen (h.strerror (h.pthread_mutex_unlock s.trace)))).covers
                (strlen (h.strerror (h.pthread_mutex_unlock s.trace))) = true →
              (h.write (s.trace ++ [Call.pthread_mutex_unlock, Call.write 1 18,
                Call.write 1 (strlen (h.strerror (h.pthread_mutex_unlock s.trace)))]) 1
                1).covers 1 = true →
              s'.out 1 = s.out 1 ++ chars "HAL UnLOCK ERROR: "
                ++ until_nul (h.strerror (h.pthread_mutex_unlock s.trace)) ++ chars "\n")) := by
  have hcount : ∀ r : Int,
      to_size_t (to_int (strlen (h.strerror r))) = strlen (h.strerror r) := by
    intro r
    have hr := hlen r
    unfold INT_MAX at hr
    unfold to_size_t to_int
    omega
  have h16 : to_size_t (sizeof_literal "HAL LOCK ERROR: " - 1) = 16 := by decide
  have h18 : to_size_t (sizeof_literal "HAL UnLOCK ERROR: " - 1) = 18 := by decide
  have h1 : to_size_t 1 = 1 := by decide
  refine ⟨?_, ?_, ?_, ?_⟩
  · intro hr
    refine ⟨(pthread_mutex_lock h s).2, ?_, rfl, rfl⟩
    rw [hal_lock_debug cfg h s hplain hdebug]
    simp [hr]
  · intro hr
    refine ⟨report_lock_error h (pthread_mutex_lock h s).2 "HAL LOCK ERROR: "
      (h.pthread_mutex_lock s.trace), ?_, ?_, ?_⟩
    · rw [hal_lock_debug cfg h s hplain hdebug, if_pos hr]
    · rw [report_lock_error_trace, hcount, h16, h1]
      simp [pthread_mutex_lock]
    · intro hw1 hw2 hw3
      have hl : (chars "HAL LOCK ERROR: ").length = 16 := by decide
      have hout := report_lock_error_out h (pthread_mutex_lock h s).2 "HAL LOCK ERROR: "
        (h.pthread_mutex_lock s.trace) (by decide) (hlen _)
      simp only [hl, pthread_mutex_lock, List.append_assoc, List.singleton_append] at hout
      rw [List.append_assoc, List.append_assoc]
      exact hout hw1 hw2 hw3
  · intro hr
    refine ⟨(pthread_mutex_unlock h s).2, ?_, rfl, rfl⟩
    rw [hal_unlock_debug cfg h s hplain hdebug]
    simp [hr]
  · intro hr
    refine ⟨report_lock_error h (pthread_mutex_unlock h s).2 "HAL UnLOCK ERROR: "
      (h.pthread_mutex_unlock s.trace), ?_, ?_, ?_⟩
    · rw [hal_unlock_debug cfg h s hplain hdebug, if_pos hr]
    · rw [report_lock_error_trace, hcount, h18, h1]
      simp [pthread_mutex_unlock]
    · intro hw1 hw2 hw3
      have hl : (chars "HAL UnLOCK ERROR: ").length = 18 := by decide
      have hout := report_lock_error_out h (pthread_mutex_unlock h s).2 "HAL UnLOCK ERROR: "
        (h.pthread_mutex_unlock s.trace) (by decide) (hlen _)
      simp only [hl, pthread_mutex_unlock, List.append_assoc, List.singleton_append] at hout
      rw [List.append_assoc, List.append_assoc]
      exact hout hw1 hw2 hw3

/-- Witness of C6, amended: in the reporting build, on a host whose mutex
calls answer 22 and that has room for 100 bytes per write, `hal_lock()` leaves
`HAL LOCK ERROR: Invalid argument` and a newline on the channel and
`hal_unlock()` leaves `HAL UnLOCK ERROR: Invalid argument` and a newline;
on a host whose mutex calls answer 0 the channel stays empty. -/
theorem lock_failure_reported_witness :
    (∃ s' : HalState, hal_lock cfg_lock_debug host_einval_100 state0 = Flow.next s'
        ∧ s'.out 1 = chars "HAL LOCK ERROR: Invalid argument\n")
      ∧ (∃ s' : HalState, hal_unlock cfg_lock_debug host_einval_100 state0 = Flow.next s'
        ∧ s'.out 1 = chars "HAL UnLOCK ERROR: Invalid argument\n")
      ∧ (∃ s' : HalState, hal_lock cfg_lock_debug host_ok state0 = Flow.next s'
        ∧ s'.out 1 = []) := by
  have hbad := lock_failure_reported cfg_lock_debug host_einval_100 state0 rfl rfl
    (by intro r; show ((strlen (chars "Invalid argument") : Nat) : Int) ≤ INT_MAX; decide)
  have hgood := lock_failure_reported cfg_lock_debug host_ok state0 rfl rfl
    (by intro r; show ((strlen (chars "Unknown error") : Nat) : Int) ≤ INT_MAX; decide)
  refine ⟨?_, ?_, ?_⟩
  · obtain ⟨s', hs, _, hout⟩ := hbad.2.1 (by decide)
    exact ⟨s', hs, by rw [hout (by decide) (by decide) (by decide)]; decide⟩
  · obtain ⟨s', hs, _, hout⟩ := hbad.2.2.2 (by decide)
    exact ⟨s', hs, by rw [hout (by decide) (by decide) (by decide)]; decide⟩
  · obtain ⟨s', hs, _, hout⟩ := hgood.1 rfl
    exact ⟨s', hs, by rw [hout]; rfl⟩

/-- C7, refuted as stated: no build configuration treats a failing acquire or
release as fatal, that is, there is no configuration in which, whenever the
mutex call answers something other than 0, `hal_lock()` and `hal_unlock()`
stop the process instead of handing control to the next statement. -/
theorem lock_failure_fatal_counterexample :
    ¬ ∃ cfg : BuildConfig, ∀ (h : Host) (s : HalState),
        (h.pthread_mutex_lock s.trace ≠ 0 → ∃ s' : HalState, hal_lock cfg h s = Flow.halt s')
        ∧ (h.pthread_mutex_unlock s.trace ≠ 0 →
            ∃ s' : HalState, hal_unlock cfg h s = Flow.halt s') := by
  rintro ⟨cfg, hfatal⟩
  obtain ⟨s1, hhalt⟩ := (hfatal host_einval state0).1 (by decide)
  obtain ⟨s2, hnext⟩ := hal_lock_next cfg host_einval state0
  rw [hnext] at hhalt
  cases hhalt

/-- C7, amended: the lock is configurable among three builds (no lock, the
mutex call with its result dropped, the mutex call with a report), and in
every one of them, whatever the mutex call answers, `hal_lock()` and
`hal_unlock()` hand control to the next statement: a lock failure is never
fatal. -/
theorem lock_failure_never_fatal (cfg : BuildConfig) (h : Host) (s : HalState) :
    (∃ s' : HalState, hal_lock cfg h s = Flow.next s')
      ∧ (∃ s' : HalState, hal_unlock cfg h s = Flow.next s') :=
  ⟨hal_lock_next cfg h s, hal_unlock_next cfg h s⟩

theorem write_mutex_held (h : Host) (s : HalState) (fd : Int) (buf : Buffer) (count : Nat) :
    (write h s fd buf count).2.mutex_held = s.mutex_held := by
  unfold write
  cases h.write s.trace fd count <;> rfl

theorem report_lock_error_mutex_held (h : Host) (s : HalState) (msg : String) (r : Int) :
    (report_lock_error h s msg r).mutex_held = s.mutex_held := by
  simp [report_lock_error, hal_write, write_mutex_held]

theorem hal_lock_calls_mutex (cfg : BuildConfig) (h : Host) (s : HalState)
    (hsym : cfg.def_MRBC_ENABLE_HAL_LOCK = true ∨ cfg.def_MRBC_ENABLE_HAL_LOCK_DEBUG = true) :
    ∃ s' : HalState, hal_lock cfg h s = Flow.next s'
      ∧ s.trace ++ [Call.pthread_mutex_lock] <+: s'.trace
      ∧ s'.trace.count Call.pthread_mutex_lock = s.trace.count Call.pthread_mutex_lock + 1
      ∧ s'.mutex_held = (if h.pthread_mutex_lock s.trace = 0 then true else s.mutex_held) := by
  cases hplain : cfg.def_MRBC_ENABLE_HAL_LOCK with
  | true =>
    refine ⟨(pthread_mutex_lock h s).2, by simp [hal_lock, hplain], List.prefix_refl _, ?_, rfl⟩
    simp [pthread_mutex_lock, List.count_append]
  | false =>
    have hdebug : cfg.def_MRBC_ENABLE_HAL_LOCK_DEBUG = true := by
      rcases hsym with h1 | h1
      · rw [hplain] at h1
        cases h1
      · exact h1
    rw [hal_lock_debug cfg h s hplain hdebug]
    by_cases hr : h.pthread_mutex_lock s.trace ≠ 0
    · rw [if_pos hr]
      refine ⟨_, rfl, ?_, ?_, ?_⟩
      · rw [report_lock_error_trace]
        exact List.prefix_append _ _
      · rw [report_lock_error_trace]
        simp [pthread_mutex_lock, List.count_append, List.count_cons]
      · rw [report_lock_error_mutex_held]
        rfl
    · rw [if_neg hr]
      refine ⟨_, rfl, List.prefix_refl _, ?_, rfl⟩
      simp [pthread_mutex_lock, List.count_append]

theorem hal_unlock_calls_mutex (cfg : BuildConfig) (h : Host) (s : HalState)
    (hsym : cfg.def_MRBC_ENABLE_HAL_LOCK = true ∨ cfg.def_MRBC_ENABLE_HAL_LOCK_DEBUG = true) :
    ∃ s' : HalState, hal_unlock cfg h s = Flow.next s'
      ∧ s.trace ++ [Call.pthread_mutex_unlock] <+: s'.trace
      ∧ s'.trace.count Call.pthread_mutex_unlock
          = s.trace.count Call.pthread_mutex_unlock + 1
      ∧ s'.mutex_held
          = (if h.pthread_mutex_unlock s.trace = 0 then false else s.mutex_held) := by
  cases hplain : cfg.def_MRBC_ENABLE_HAL_LOCK with
  | true =>
    refine ⟨(pthread_mutex_unlock h s).2, by simp [hal_unlock, hplain], List.prefix_refl _,
      ?_, rfl⟩
    simp [pthread_mutex_unlock, List.count_append]
  | false =>
    have hdebug : cfg.def_MRBC_ENABLE_HAL_LOCK_DEBUG = true := by
      rcases hsym with h1 | h1
      · rw [hplain] at h1
        cases h1
      · exact h1
    rw [hal_unlock_debug cfg h s hplain hdebug]
    by_cases hr : h.pthread_mutex_unlock s.trace ≠ 0
    · rw [if_pos hr]
      refine ⟨_, rfl, ?_, ?_, ?_⟩
      · rw [report_lock_error_trace]
        exact List.prefix_append _ _
      · rw [report_lock_error_trace]
        simp [pthread_mutex_unlock, List.count_append, List.count_cons]
      · rw [report_lock_error_mutex_held]
        rfl
    · rw [if_neg hr]
      refine ⟨_, rfl, List.prefix_refl _, ?_, rfl⟩
      simp [pthread_mutex_unlock, List.count_append]

/-- C8, refuted as stated: in the cooperative build that also defines
`MRBC_ENABLE_HAL_LOCK`, `hal_lock()` calls `pthread_mutex_lock` and takes the
mutex, and `hal_unlock()` calls `pthread_mutex_unlock`. -/
theorem lock_noop_cooperative_counterexample :
    cfg_no_timer_lock.def_MRBC_NO_TIMER = true
      ∧ state0.mutex_held = false
      ∧ (∃ s' : HalState, hal_lock cfg_no_timer_lock host_ok state0 = Flow.next s'
          ∧ s'.trace = state0.trace ++ [Call.pthread_mutex_lock] ∧ s'.mutex_held = true)
      ∧ (∃ s' : HalState, hal_unlock cfg_no_timer_lock host_ok state0 = Flow.next s'
          ∧ s'.trace = state0.trace ++ [Call.pthread_mutex_unlock]) :=
  ⟨rfl, rfl, ⟨_, rfl, rfl, rfl⟩, ⟨_, rfl, rfl⟩⟩

/-- C8, amended: `hal_lock()` and `hal_unlock()` are no-ops exactly in the
builds that define neither `MRBC_ENABLE_HAL_LOCK` nor
`MRBC_ENABLE_HAL_LOCK_DEBUG`, whether or not `MRBC_NO_TIMER` is defined: in
those builds, for every host and state, each of them hands the state on
unchanged (no mutex call, nothing written).  In a build that defines one of
the two symbols, cooperative or not, for every host and state the mutex call
is made: the first call `hal_lock()` adds to the trace is
`pthread_mutex_lock`, it adds exactly one such call, and the mutex is held
afterwards when the host answers 0; likewise `hal_unlock()` with
`pthread_mutex_unlock`. -/
theorem lock_noop_iff_unconfigured (cfg : BuildConfig) (h : Host) (s : HalState) :
    (hal_lock cfg h s = Flow.next s ↔
        (cfg.def_MRBC_ENABLE_HAL_LOCK = false ∧ cfg.def_MRBC_ENABLE_HAL_LOCK_DEBUG = false))
      ∧ (hal_unlock cfg h s = Flow.next s ↔
        (cfg.def_MRBC_ENABLE_HAL_LOCK = false ∧ cfg.def_MRBC_ENABLE_HAL_LOCK_DEBUG = false))
      ∧ ((cfg.def_MRBC_ENABLE_HAL_LOCK = true ∨ cfg.def_MRBC_ENABLE_HAL_LOCK_DEBUG = true) →
        (∃ s' : HalState, hal_lock cfg h s = Flow.next s'
          ∧ s.trace ++ [Call.pthread_mutex_lock] <+: s'.trace
          ∧ s'.trace.count Call.pthread_mutex_lock
              = s.trace.count Call.pthread_mutex_lock + 1
          ∧ s'.mutex_held
              = (if h.pthread_mutex_lock s.trace = 0 then true else s.mutex_held))
        ∧ (∃ s' : HalState, hal_unlock cfg h s = Flow.next s'
          ∧ s.trace ++ [Call.pthread_mutex_unlock] <+: s'.trace
          ∧ s'.trace.count Call.pthread_mutex_unlock
              = s.trace.count Call.pthread_mutex_unlock + 1
          ∧ s'.mutex_held
              = (if h.pthread_mutex_unlock s.trace = 0 then false else s.mutex_held))) := by
  have hgrow : ∀ (t : List Call) (c : Call) (cs : List Call), t ++ c :: cs ≠ t := by
    intro t c cs heq
    have hlen := congrArg List.length heq
    simp at hlen
  refine ⟨?_, ?_, ?_⟩
  · constructor
    · intro hnoop
      cases hplain : cfg.def_MRBC_ENABLE_HAL_LOCK with
      | true =>
        exfalso
        simp only [hal_lock, hplain, if_true, Flow.next.injEq] at hnoop
        exact hgrow s.trace _ [] (congrArg HalState.trace hnoop)
      | false =>
        cases hdebug : cfg.def_MRBC_ENABLE_HAL_LOCK_DEBUG with
        | false => exact ⟨rfl, rfl⟩
        | true =>
          exfalso
          rw [hal_lock_debug cfg h s hplain hdebug] at hnoop
          split at hnoop
          · simp only [Flow.next.injEq] at hnoop
            have htr := congrArg HalState.trace hnoop
            rw [report_lock_error_trace] at htr
            simp only [pthread_mutex_lock, List.append_assoc, List.singleton_append] at htr
            exact hgrow s.trace _ _ htr
          · simp only [Flow.next.injEq] at hnoop
            exact hgrow s.trace _ [] (congrArg HalState.trace hnoop)
    · rintro ⟨hplain, hdebug⟩
      simp [hal_lock, hplain, hdebug]
  · constructor
    · intro hnoop
      cases hplain : cfg.def_MRBC_ENABLE_HAL_LOCK with
      | true =>
        exfalso
        simp only [hal_unlock, hplain, if_true, Flow.next.injEq] at hnoop
        exact hgrow s.trace _ [] (congrArg HalState.trace hnoop)
      | false =>
        cases hdebug : cfg.def_MRBC_ENABLE_HAL_LOCK_DEBUG with
        | false => exact ⟨rfl, rfl⟩
        | true =>
          exfalso
          rw [hal_unlock_debug cfg h s hplain hdebug] at hnoop
          split at hnoop
          · simp only [Flow.next.injEq] at hnoop
            have htr := congrArg HalState.trace hnoop
            rw [report_lock_error_trace] at htr
            simp only [pthread_mutex_unlock, List.append_assoc, List.singleton_append] at htr
            exact hgrow s.trace _ _ htr
          · simp only [Flow.next.injEq] at hnoop
            exact hgrow s.trace _ [] (congrArg HalState.trace hnoop)
    · rintro ⟨hplain, hdebug⟩
      simp [hal_unlock, hplain, hdebug]
  · intro hsym
    exact ⟨hal_lock_calls_mutex cfg h s hsym, hal_unlock_calls_mutex cfg h s hsym⟩

/-- Witness of C8, amended: the cooperative build without a lock symbol hands
the state on unchanged; the cooperative build with
`MRBC_ENABLE_HAL_LOCK_DEBUG`, on a host whose mutex calls answer 22, starts
`hal_lock()` with the `pthread_mutex_lock` call and `hal_unlock()` with the
`pthread_mutex_unlock` call. -/
theorem lock_noop_iff_unconfigured_witness :
    hal_lock cfg_no_timer host_ok state41 = Flow.next state41
      ∧ hal_unlock cfg_no_timer host_ok state41 = Flow.next state41
      ∧ (∃ s' : HalState, hal_lock cfg_no_timer_lock_debug host_einval state41 = Flow.next s'
          ∧ state41.trace ++ [Call.pthread_mutex_lock] <+: s'.trace
          ∧ s'.trace.count Call.pthread_mutex_lock
              = state41.trace.count Call.pthread_mutex_lock + 1
          ∧ s'.mutex_held
              = (if host_einval.pthread_mutex_lock state41.trace = 0 then true
                  else state41.mutex_held))
      ∧ (∃ s' : HalState,
          hal_unlock cfg_no_timer_lock_debug host_einval state41 = Flow.next s'
          ∧ state41.trace ++ [Call.pthread_mutex_unlock] <+: s'.trace
          ∧ s'.trace.count Call.pthread_mutex_unlock
              = state41.trace.count Call.pthread_mutex_unlock + 1
          ∧ s'.mutex_held
              = (if host_einval.pthread_mutex_unlock state41.trace = 0 then false
                  else state41.mutex_held)) :=
  ⟨(lock_noop_iff_unconfigured cfg_no_timer host_ok state41).1.mpr ⟨rfl, rfl⟩,
   (lock_noop_iff_unconfigured cfg_no_timer host_ok state41).2.1.mpr ⟨rfl, rfl⟩,
   ((lock_noop_iff_unconfigured cfg_no_timer_lock_debug host_einval state41).2.2
      (Or.inr rfl)).1,
   ((lock_noop_iff_unconfigured cfg_no_timer_lock_debug host_einval state41).2.2
      (Or.inr rfl)).2⟩

/-! ## Idle Wait timeout and Tick Configuration -/

theorem idle_timeout_no_timer (cfg : BuildConfig) (s : HalState)
    (hmode : cfg.def_MRBC_NO_TIMER = true) :
    idle_timeout_usec cfg s = to_useconds_t (to_int (MRBC_TICK_UNIT cfg * 1000)) := by
  unfold idle_timeout_usec
  rw [hal_idle_cpu_no_timer cfg s hmode]
  simp [mrbc_tick, usleep, Call.block_usec]

theorem idle_timeout_timer (cfg : BuildConfig) (s : HalState)
    (hmode : cfg.def_MRBC_NO_TIMER = false) : idle_timeout_usec cfg s = 1000000 := by
  unfold idle_timeout_usec
  rw [hal_idle_cpu_timer cfg s hmode]
  simp [sleep, Call.block_usec]

/-- C9, refuted as stated: in the interrupt-capable build with the default
tick unit of 4 ms, `hal_idle_cpu()` is the single request `sleep(1)`, which
asks to block for 1000000 microseconds, not for the 4000 of one tick period;
the same holds with the tick unit set to 1, 2 or 10 ms. -/
theorem idle_timeout_counterexample :
    cfg_default.def_MRBC_NO_TIMER = false
      ∧ MRBC_TICK_UNIT cfg_default = 4
      ∧ (hal_idle_cpu cfg_default state0).trace = [Call.sleep 1]
      ∧ idle_timeout_usec cfg_default state0 = 1000000
      ∧ (idle_timeout_usec cfg_default state0 : Int) ≠ MRBC_TICK_UNIT cfg_default * 1000
      ∧ idle_timeout_usec { cfg_default with def_MRBC_TICK_UNIT := some 1 } state0 = 1000000
      ∧ idle_timeout_usec { cfg_default with def_MRBC_TICK_UNIT := some 2 } state0 = 1000000
      ∧ idle_timeout_usec { cfg_default with def_MRBC_TICK_UNIT := some 10 } state0
          = 1000000 := by
  refine ⟨rfl, rfl, rfl, rfl, ?_, rfl, rfl, rfl⟩
  decide

/-- C9, amended: the time `hal_idle_cpu()` asks to block for depends on the
build.  In the cooperative build, for every tick unit that is a non-negative
number of milliseconds whose count of microseconds fits `int` (1, 2, 4 and 10
among them), it is exactly one tick period, `MRBC_TICK_UNIT * 1000`
microseconds.  In the interrupt-capable build it is one second, 1000000
microseconds, whatever the tick unit. -/
theorem idle_timeout_by_mode (cfg : BuildConfig) (s : HalState) :
    (cfg.def_MRBC_NO_TIMER = true → 0 ≤ MRBC_TICK_UNIT cfg →
        MRBC_TICK_UNIT cfg * 1000 ≤ INT_MAX →
        (idle_timeout_usec cfg s : Int) = MRBC_TICK_UNIT cfg * 1000)
      ∧ (cfg.def_MRBC_NO_TIMER = false → idle_timeout_usec cfg s = 1000000) := by
  refine ⟨?_, idle_timeout_timer cfg s⟩
  intro hmode hlo hhi
  rw [idle_timeout_no_timer cfg s hmode]
  unfold INT_MAX at hhi
  unfold to_useconds_t to_int
  omega

/-- Witness of C9, amended: the cooperative build with a tick unit of 10 ms
asks for 10000 microseconds; the interrupt-capable build with the same tick
unit asks for 1000000. -/
theorem idle_timeout_by_mode_witness :
    (idle_timeout_usec { cfg_no_timer with def_MRBC_TICK_UNIT := some 10 } state41 : Int)
        = 10000
      ∧ idle_timeout_usec cfg_tick_unit_10 state41 = 1000000 :=
  ⟨(idle_timeout_by_mode { cfg_no_timer with def_MRBC_TICK_UNIT := some 10 } state41).1
      rfl (by decide) (by decide),
   (idle_timeout_by_mode cfg_tick_unit_10 state41).2 rfl⟩

/-- C10, refuted as stated: in the build that overrides the tick unit only
(`-DMRBC_TICK_UNIT=10`), the header leaves `MRBC_TIMESLICE_TICK_COUNT`
undefined: the default 3 does not apply, there is no count that is at least 1
and no timeslice duration. -/
theorem tick_configuration_counterexample :
    cfg_tick_unit_10.def_MRBC_TICK_UNIT = some 10
      ∧ cfg_tick_unit_10.def_MRBC_TIMESLICE_TICK_COUNT = none
      ∧ MRBC_TICK_UNIT cfg_tick_unit_10 = 10
      ∧ MRBC_TIMESLICE_TICK_COUNT cfg_tick_unit_10 = none
      ∧ MRBC_TIMESLICE_TICK_COUNT cfg_tick_unit_10 ≠ some 3
      ∧ (¬ ∃ n : Int, MRBC_TIMESLICE_TICK_COUNT cfg_tick_unit_10 = some n ∧ 1 ≤ n)
      ∧ timeslice_ms cfg_tick_unit_10 = none := by
  refine ⟨rfl, rfl, rfl, rfl, by decide, ?_, rfl⟩
  rintro ⟨n, hn, _⟩
  cases hn

/-- C10, amended: for every build configuration `MRBC_TICK_UNIT` is the
build's value or else 4.  The default 3 of `MRBC_TIMESLICE_TICK_COUNT` is tied
to the same guard: a build that supplies neither symbol gets tick unit 4,
count 3 (which is at least 1) and a timeslice of 12 ms; a build that supplies
`MRBC_TICK_UNIT` gets as count exactly what it supplies for
`MRBC_TIMESLICE_TICK_COUNT`, with no default, so the count is defined and at
least 1 exactly when the build supplies a value that is at least 1. -/
theorem tick_configuration_resolved (cfg : BuildConfig) :
    MRBC_TICK_UNIT cfg = cfg.def_MRBC_TICK_UNIT.getD 4
      ∧ (cfg.def_MRBC_TICK_UNIT = none → cfg.def_MRBC_TIMESLICE_TICK_COUNT = none →
          MRBC_TICK_UNIT cfg = 4 ∧ MRBC_TIMESLICE_TICK_COUNT cfg = some 3
          ∧ timeslice_ms cfg = some 12)
      ∧ (∀ u : Int, cfg.def_MRBC_TICK_UNIT = some u →
          MRBC_TICK_UNIT cfg = u
          ∧ MRBC_TIMESLICE_TICK_COUNT cfg = cfg.def_MRBC_TIMESLICE_TICK_COUNT
          ∧ timeslice_ms cfg = cfg.def_MRBC_TIMESLICE_TICK_COUNT.map (fun n => u * n)
          ∧ ((∃ n : Int, MRBC_TIMESLICE_TICK_COUNT cfg = some n ∧ 1 ≤ n)
              ↔ ∃ n : Int, cfg.def_MRBC_TIMESLICE_TICK_COUNT = some n ∧ 1 ≤ n)) := by
  refine ⟨?_, ?_, ?_⟩
  · unfold MRBC_TICK_UNIT MRBC_TICK_UNIT_4_MS
    cases cfg.def_MRBC_TICK_UNIT <;> rfl
  · intro hunit hcount
    simp [MRBC_TICK_UNIT, MRBC_TIMESLICE_TICK_COUNT, timeslice_ms, hunit, MRBC_TICK_UNIT_4_MS]
  · intro u hunit
    simp [MRBC_TICK_UNIT, MRBC_TIMESLICE_TICK_COUNT, timeslice_ms, hunit]

/-- Witness of C10, amended: the build that defines nothing resolves to tick
unit 4, count 3 and 12 ms; the build with `-DMRBC_TICK_UNIT=10` resolves to
tick unit 10 and no count; the build with `-DMRBC_TICK_UNIT=2
-DMRBC_TIMESLICE_TICK_COUNT=5` resolves to tick unit 2, count 5 and 10 ms. -/
theorem tick_configuration_resolved_witness :
    (MRBC_TICK_UNIT cfg_default = 4 ∧ MRBC_TIMESLICE_TICK_COUNT cfg_default = some 3
        ∧ timeslice_ms cfg_default = some 12)
      ∧ (MRBC_TICK_UNIT cfg_tick_unit_10 = 10
        ∧ MRBC_TIMESLICE_TICK_COUNT cfg_tick_unit_10 = none)
      ∧ (MRBC_TIMESLICE_TICK_COUNT
            { cfg_default with def_MRBC_TICK_UNIT := some 2,
                               def_MRBC_TIMESLICE_TICK_COUNT := some 5 } = some 5
        ∧ timeslice_ms
            { cfg_default with def_MRBC_TICK_UNIT := some 2,
                               def_MRBC_TIMESLICE_TICK_COUNT := some 5 } = some 10) :=
  ⟨(tick_configuration_resolved cfg_default).2.1 rfl rfl,
   ⟨((tick_configuration_resolved cfg_tick_unit_10).2.2 10 rfl).1,
    ((tick_configuration_resolved cfg_tick_unit_10).2.2 10 rfl).2.1⟩,
   ⟨((tick_configuration_resolved
        { cfg_default with def_MRBC_TICK_UNIT := some 2,
                           def_MRBC_TIMESLICE_TICK_COUNT := some 5 }).2.2 2 rfl).2.1,
    ((tick_configuration_resolved
        { cfg_default with def_MRBC_TICK_UNIT := some 2,
                           def_MRBC_TIMESLICE_TICK_COUNT := some 5 }).2.2 2 rfl).2.2.1⟩⟩

end HalPosix
